import Mathlib

/-!
Shallow embedding of the WhatsApp session-manager service
(`src/whats/whatsapp.service.ts`, class `WhatsappSessionManagerService`,
both concatenated variants) and proofs about its registry, authentication
promise, chat cache, QR-challenge handling and logout/teardown behavior.

JavaScript `Map` objects are modelled as association lists with `Map.set` /
`Map.delete` semantics; promises are modelled by a settle-once `PState`;
driver callbacks (`qr`, `ready`, `auth_failure`, `disconnected`, timer
expirations) are modelled as events folded over the per-session state; the
single `await` suspension point inside `getClientForUser` is modelled by an
explicit two-phase task interleaving (`stepTask` / `runSchedule`).
-/

namespace WhatsAuto

/-- State of a JS promise: settles at most once (`resolve`/`reject` after
settlement are no-ops). -/
inductive PState where
  | pending
  | resolved
  | rejected (msg : String)
deriving DecidableEq, Repr

/-- `resolve()` on a promise: only effective while pending. -/
def resolveP : PState → PState
  | .pending => .resolved
  | s => s

/-- `reject(msg)` on a promise: only effective while pending. -/
def rejectP (msg : String) : PState → PState
  | .pending => .rejected msg
  | s => s

/-- A chat as returned by the driver's `getChats` / `getChatById`
(the fields the service reads: `isGroup`, `id._serialized`, `id.user`,
`name`; an absent/falsy `name` is modelled as `""`). -/
structure Chat where
  isGroup : Bool
  idSerialized : String
  idUser : String
  name : String
deriving DecidableEq, Repr

/-- The `{ id, name }` projection produced by `getChats`:
`id: chat.id._serialized`, `name: chat.name || chat.id.user`. -/
structure ChatSummary where
  id : String
  name : String
deriving DecidableEq, Repr

/-- `chat => ({ id: chat.id._serialized, name: chat.name || chat.id.user })`. -/
def projectChat (c : Chat) : ChatSummary :=
  { id := c.idSerialized, name := if c.name = "" then c.idUser else c.name }

/-- `WhatsAppClientData` (variant 1): the per-tenant session record.
`clientId` is the identity of the underlying driver `Client` instance
(numbered in order of construction); `info` models the driver's
`client.info` field (truthy once authenticated). -/
structure ClientData where
  clientId : Nat
  qrCode : Option String
  ready : PState
  info : Bool
deriving DecidableEq, Repr

/-- A freshly constructed client: `qrCode: null`, pending ready-promise,
no `client.info` yet. -/
def freshClient (n : Nat) : ClientData :=
  { clientId := n, qrCode := none, ready := .pending, info := false }

/-- One `chatCache` entry: `{ data, timestamp }`. -/
structure CacheEntry where
  data : List ChatSummary
  timestamp : Nat
deriving DecidableEq, Repr

/-- `Map.get(k)` on an association list. -/
def lookupEntry {α : Type} (m : List (String × α)) (k : String) : Option α :=
  match m with
  | [] => none
  | (k', v) :: rest => if k' = k then some v else lookupEntry rest k

/-- `Map.set(k, v)`: replaces the value in place, or appends. -/
def setEntry {α : Type} (m : List (String × α)) (k : String) (v : α) :
    List (String × α) :=
  match m with
  | [] => [(k, v)]
  | (k', v') :: rest =>
    if k' = k then (k, v) :: rest else (k', v') :: setEntry rest k v

/-- `Map.delete(k)`. -/
def removeEntry {α : Type} (m : List (String × α)) (k : String) :
    List (String × α) :=
  match m with
  | [] => []
  | (k', v) :: rest =>
    if k' = k then removeEntry rest k else (k', v) :: removeEntry rest k

/-- `CACHE_TTL = 5 * 60 * 1000` (5 minutes, in ms). -/
def CACHE_TTL : Nat := 5 * 60 * 1000

/-- The 10 s bound on the `Promise.race` in `logout`. -/
def LOGOUT_TIMEOUT_MS : Nat := 10000

/-- `2 * 60 * 1000`: expiry of a QR challenge in variant 2. -/
def QR_EXPIRY_MS : Nat := 2 * 60 * 1000

/-- Service state: the two `Map` fields plus instrumentation counting the
observable external effects (driver constructions, upstream `getChats`
calls, driver send calls). -/
structure ServiceState where
  sessions : List (String × ClientData)
  chatCache : List (String × CacheEntry)
  constructions : Nat
  upstreamCalls : Nat
  sendCalls : Nat
deriving DecidableEq, Repr

/-- The service right after the module is instantiated: both maps empty. -/
def emptyState : ServiceState :=
  { sessions := [], chatCache := [], constructions := 0, upstreamCalls := 0,
    sendCalls := 0 }

/-- `createClient(userId)`: constructs a new driver `Client` (counted),
wires the event handlers, starts `initialize()` and returns the
`WhatsAppClientData` record without waiting for authentication. -/
def createClient (st : ServiceState) (_userId : String) :
    ClientData × ServiceState :=
  (freshClient st.constructions,
   { st with constructions := st.constructions + 1 })

/-- `getClientForUser(userId)` run without interference from other tasks:
return the registered session if present, otherwise construct one,
register it and return it. -/
def getClientForUser (st : ServiceState) (userId : String) :
    ClientData × ServiceState :=
  match lookupEntry st.sessions userId with
  | some cd => (cd, st)
  | none =>
    let (cd, st') := createClient st userId
    (cd, { st' with sessions := setEntry st'.sessions userId cd })

/-- Driver lifecycle events handled by variant 1's `createClient`. -/
inductive WEvent where
  | qr (payload : String)
  | ready
  | authFailure (msg : String)
deriving DecidableEq, Repr

/-- `QRCode.toDataURL`: an injective rendering of the QR payload. -/
def toDataURL (payload : String) : String := "data:image/png;base64," ++ payload

/-- Variant 1's event handlers on a session's `clientData`:
`qr` stores the rendered code, `ready` clears it and resolves the
ready-promise (the driver has also populated `client.info` by then),
`auth_failure` rejects the ready-promise — and nothing else. -/
def handleEventV1 (cd : ClientData) (e : WEvent) : ClientData :=
  match e with
  | .qr payload => { cd with qrCode := some (toDataURL payload) }
  | .ready => { cd with qrCode := none, ready := resolveP cd.ready, info := true }
  | .authFailure msg => { cd with ready := rejectP msg cd.ready }

/-- A driver event firing for the client registered under `userId`
(the handlers mutate the `clientData` object held in `sessions`; they
never touch the `sessions` map itself). -/
def serviceEvent (st : ServiceState) (userId : String) (e : WEvent) :
    ServiceState :=
  match lookupEntry st.sessions userId with
  | none => st
  | some cd =>
    { st with sessions := setEntry st.sessions userId (handleEventV1 cd e) }

/-- Is the event a `qr` callback? -/
def WEvent.isQr : WEvent → Bool
  | .qr _ => true
  | _ => false

/-- The state of a freshly created variant-1 session at wall-clock time `T`,
given the timestamped driver events that have fired.  Variant 1's
`createClient` registers no timers, so only driver events with
timestamp `≤ T` act on the session. -/
def stateAtV1 (events : List (Nat × WEvent)) (T : Nat) : ClientData :=
  ((events.filter (fun p => p.1 ≤ T)).map Prod.snd).foldl handleEventV1
    (freshClient 0)

/-- Outcome of an `async` service operation: normal completion, a thrown /
rejected error, or suspension on a still-pending promise.  Each carries
the service state reached so far. -/
inductive OpResult (α : Type) where
  | ok (a : α) (st : ServiceState)
  | err (msg : String) (st : ServiceState)
  | blocked (st : ServiceState)
deriving DecidableEq, Repr

/-- The cache-miss path of `getChats`: acquire the session, await its
ready-promise, call the driver's `getChats` (counted), filter to groups,
project to `{id, name}`, store in the cache with the timestamp taken at
entry, and return. -/
def getChatsMiss (st : ServiceState) (userId : String) (now : Nat)
    (driverChats : List Chat) : OpResult (List ChatSummary) :=
  let (cd, st1) := getClientForUser st userId
  match cd.ready with
  | .pending => .blocked st1
  | .rejected msg => .err msg st1
  | .resolved =>
    let result := (driverChats.filter (fun c => c.isGroup)).map projectChat
    .ok result
      { st1 with
        upstreamCalls := st1.upstreamCalls + 1,
        chatCache := setEntry st1.chatCache userId ⟨result, now⟩ }

/-- `getChats(userId)`: return the cached entry when it is younger than
`CACHE_TTL`, otherwise run the miss path.  `now` is `Date.now()`;
`driverChats` is what the driver would answer. -/
def getChats (st : ServiceState) (userId : String) (now : Nat)
    (driverChats : List Chat) : OpResult (List ChatSummary) :=
  match lookupEntry st.chatCache userId with
  | some cache =>
    if now - cache.timestamp < CACHE_TTL then .ok cache.data st
    else getChatsMiss st userId now driverChats
  | none => getChatsMiss st userId now driverChats

/-- `mentionEveryone(userId, chatId, message)`: acquire the session, await
readiness, fetch the chat; a missing chat or a non-group chat throws
before any send; otherwise `sendTextWithMentions` is called (counted). -/
def mentionEveryone (st : ServiceState) (userId _chatId _message : String)
    (driverChat : Option Chat) : OpResult Unit :=
  let (cd, st1) := getClientForUser st userId
  match cd.ready with
  | .pending => .blocked st1
  | .rejected msg => .err msg st1
  | .resolved =>
    match driverChat with
    | none => .err "Chat não encontrado" st1
    | some chat =>
      if !chat.isGroup then .err "O chat não é um grupo" st1
      else .ok () { st1 with sendCalls := st1.sendCalls + 1 }

/-- Result of variant 1's `getQRCode`: `{ qr }` or `{ ready: true }`. -/
inductive QRCodeResult where
  | qr (code : String)
  | readyFlag
deriving DecidableEq, Repr

/-- `getQRCode(userId)` (variant 1): acquire (or create) the session and
report its current QR code, else `{ ready: true }`.  Does not await the
ready-promise. -/
def getQRCode (st : ServiceState) (userId : String) :
    QRCodeResult × ServiceState :=
  let (cd, st1) := getClientForUser st userId
  match cd.qrCode with
  | some q => (.qr q, st1)
  | none => (.readyFlag, st1)

/-- `getConnectionStatus(userId)` (variant 2): acquire (or create) the
session; a client without `client.info` is reported `disconnected`. -/
def getConnectionStatus (st : ServiceState) (userId : String) :
    String × ServiceState :=
  let (cd, st1) := getClientForUser st userId
  if !cd.info then ("disconnected", st1) else ("connected", st1)

/-- Observable teardown actions of `logout`, in completion order. -/
inductive TAct where
  | remoteLogout (ok : Bool)
  | destroy (ok : Bool)
  | evict
  | removeFiles (ok : Bool)
deriving DecidableEq, Repr

/-- Did the `Except` settle without error? -/
def exceptOk : Except String Unit → Bool
  | .ok _ => true
  | .error _ => false

/-- Environment nondeterminism during teardown: how the driver's `logout`
and `destroy` settle, how long the remote sign-out takes, whether the
session directory exists, and how its removal goes. -/
structure TeardownEnv where
  remoteResult : Except String Unit
  remoteDuration : Nat
  destroyResult : Except String Unit
  filesExist : Bool
  fsResult : Except String Unit

/-- `Promise.race([client.logout(), rejectAfter(10000)])`: the timeout
rejection wins when the driver has not settled within 10 s. -/
def raceLogout (res : Except String Unit) (duration : Nat) :
    Except String Unit :=
  if LOGOUT_TIMEOUT_MS ≤ duration then .error "Timeout no logout" else res

/-- `logout(userId)` (variant 1): no-op for an unknown tenant; otherwise
best-effort remote sign-out (only when `client.info` is truthy, raced
against the 10 s timeout, errors caught), then in the `finally` block:
`destroy()` (errors caught), `sessions.delete(userId)`, and removal of
the on-disk session directory (errors caught).  Returns the final state
and the trace of completed teardown actions; every failure path is
caught, so the call itself always succeeds. -/
def logout (st : ServiceState) (userId : String) (env : TeardownEnv) :
    ServiceState × List TAct :=
  match lookupEntry st.sessions userId with
  | none => (st, [])
  | some cd =>
    let remoteActs :=
      if cd.info then
        [TAct.remoteLogout (exceptOk (raceLogout env.remoteResult env.remoteDuration))]
      else []
    let destroyActs := [TAct.destroy (exceptOk env.destroyResult)]
    let fsActs :=
      if env.filesExist then [TAct.removeFiles (exceptOk env.fsResult)] else []
    ({ st with sessions := removeEntry st.sessions userId },
     remoteActs ++ destroyActs ++ [TAct.evict] ++ fsActs)

/-- Matches the `destroy` action. -/
def isDestroyAct : TAct → Bool
  | .destroy _ => true
  | _ => false

/-- Matches the `evict` (registry removal) action. -/
def isEvictAct : TAct → Bool
  | .evict => true
  | _ => false

/-- The per-session record of variant 2's `createClient`: the QR code is
rendered to ASCII, a `firstQrShown` flag gates renewals, and
`qrExpirationTimer` (modelled by its deadline) expires the code. -/
structure ClientDataV2 where
  qrCode : Option String
  firstQrShown : Bool
  qrTimerDeadline : Option Nat
  ready : PState
deriving DecidableEq, Repr

/-- A variant-2 session right after `createClient`. -/
def freshClientV2 : ClientDataV2 :=
  { qrCode := none, firstQrShown := false, qrTimerDeadline := none,
    ready := .pending }

/-- `QRCode.toString(qr, { type: utf8, small: true })`: an injective ASCII
rendering of the QR payload. -/
def asciiQR (payload : String) : String := "ascii:" ++ payload

/-- Driver and timer events handled by variant 2's `createClient`.
`qr` and `timerFire` carry the wall-clock time at which they occur. -/
inductive EventV2 where
  | qr (payload : String) (time : Nat)
  | ready
  | authFailure (msg : String)
  | disconnected
  | timerFire (time : Nat)
deriving DecidableEq, Repr

/-- Variant 2's event handlers: a `qr` event is ignored once
`firstQrShown` is set, otherwise it stores the ASCII code, sets the flag
and arms the 2-minute expiration timer; `ready` / `auth_failure` /
`disconnected` cancel the timer (and settle the ready-promise; `ready`
deliberately leaves `qrCode` in place — the clearing line is commented
out in the source); a timer firing at or past its deadline clears a
present `qrCode` but leaves `firstQrShown` set. -/
def handleEventV2 (cd : ClientDataV2) (e : EventV2) : ClientDataV2 :=
  match e with
  | .qr payload t =>
    if cd.firstQrShown then cd
    else
      { cd with
        firstQrShown := true,
        qrCode := some (asciiQR payload),
        qrTimerDeadline := some (t + QR_EXPIRY_MS) }
  | .ready => { cd with ready := resolveP cd.ready, qrTimerDeadline := none }
  | .authFailure msg =>
    { cd with ready := rejectP msg cd.ready, qrTimerDeadline := none }
  | .disconnected => { cd with qrTimerDeadline := none }
  | .timerFire t =>
    match cd.qrTimerDeadline with
    | some d =>
      if d ≤ t then
        { cd with
          qrCode := if cd.qrCode.isSome then none else cd.qrCode,
          qrTimerDeadline := none }
      else cd
    | none => cd

/-- Where a task running `getClientForUser(userId)` stands relative to its
single suspension point (the `await this.createClient(userId)`). -/
inductive TaskPhase where
  | start
  | constructed (cd : ClientData)
  | finished (cd : ClientData)
deriving DecidableEq, Repr

/-- One concurrent invocation of `getClientForUser`. -/
structure Task where
  userId : String
  phase : TaskPhase
deriving DecidableEq, Repr

/-- One scheduler step of a task.  From `start`, the `sessions.has` check
and — when it fails — the synchronous body of `createClient` run as one
atomic block ending at the `await`; the continuation (`sessions.set` and
the return) is a separate step, so other tasks may run in between. -/
def stepTask (st : ServiceState) (t : Task) : ServiceState × Task :=
  match t.phase with
  | .start =>
    match lookupEntry st.sessions t.userId with
    | some cd => (st, { t with phase := .finished cd })
    | none =>
      let (cd, st') := createClient st t.userId
      (st', { t with phase := .constructed cd })
  | .constructed cd =>
    ({ st with sessions := setEntry st.sessions t.userId cd },
     { t with phase := .finished cd })
  | .finished _ => (st, t)

/-- Run the tasks under an explicit interleaving: each schedule entry names
the task that takes the next step. -/
def runSchedule (sched : List Nat) (st : ServiceState) (tasks : List Task) :
    ServiceState × List Task :=
  match sched with
  | [] => (st, tasks)
  | i :: rest =>
    match tasks[i]? with
    | none => runSchedule rest st tasks
    | some t =>
      let (st', t') := stepTask st t
      runSchedule rest st' (tasks.set i t')

theorem lookupEntry_setEntry_self {α : Type} (m : List (String × α))
    (k : String) (v : α) : lookupEntry (setEntry m k v) k = some v := by
  induction m with
  | nil => simp [setEntry, lookupEntry]
  | cons p rest ih =>
    by_cases h : p.1 = k
    · simp [setEntry, h, lookupEntry]
    · simp [setEntry, h, lookupEntry, ih]

theorem lookupEntry_setEntry_other {α : Type} (m : List (String × α))
    (k k' : String) (v : α) (hne : k' ≠ k) :
    lookupEntry (setEntry m k v) k' = lookupEntry m k' := by
  have hne' : ¬ k = k' := fun h => hne h.symm
  induction m with
  | nil => simp [setEntry, lookupEntry, hne']
  | cons p rest ih =>
    by_cases h : p.1 = k
    · simp [setEntry, h, lookupEntry, hne']
    · simp [setEntry, h, lookupEntry, ih]

theorem lookupEntry_removeEntry_self {α : Type} (m : List (String × α))
    (k : String) : lookupEntry (removeEntry m k) k = none := by
  induction m with
  | nil => simp [removeEntry, lookupEntry]
  | cons p rest ih =>
    by_cases h : p.1 = k
    · simpa [removeEntry, h] using ih
    · simpa [removeEntry, lookupEntry, h] using ih

theorem lookupEntry_removeEntry_other {α : Type} (m : List (String × α))
    (k k' : String) (hne : k' ≠ k) :
    lookupEntry (removeEntry m k) k' = lookupEntry m k' := by
  have hne' : ¬ k = k' := fun h => hne h.symm
  induction m with
  | nil => simp [removeEntry, lookupEntry]
  | cons p rest ih =>
    by_cases h : p.1 = k
    · simp [removeEntry, h, lookupEntry, hne', ih]
    · simp [removeEntry, lookupEntry, h, ih]

/-- Folding driver `qr` callbacks over a variant-1 session never settles its
ready-promise. -/
theorem foldl_qr_ready (l : List WEvent) :
    ∀ cd : ClientData, (∀ e ∈ l, e.isQr = true) →
      (l.foldl handleEventV1 cd).ready = cd.ready := by
  induction l with
  | nil => intro cd _; rfl
  | cons e rest ih =>
    intro cd h
    have he := h e (List.mem_cons_self e rest)
    have hr : ∀ e' ∈ rest, e'.isQr = true :=
      fun e' h' => h e' (List.mem_cons_of_mem _ h')
    cases e with
    | qr payload => simpa [handleEventV1] using ih _ hr
    | ready => simp [WEvent.isQr] at he
    | authFailure msg => simp [WEvent.isQr] at he

/-- A session that has completed authentication (ready-promise resolved,
`client.info` populated). -/
def cdReady : ClientData :=
  { clientId := 0, qrCode := none, ready := .resolved, info := true }

/-- Concrete fixture: tenant `"u1"` authenticated, with a chat listing
cached at timestamp 1000. -/
def stW : ServiceState :=
  { sessions := [("u1", cdReady)],
    chatCache := [("u1", ⟨[⟨"g1", "G"⟩], 1000⟩)],
    constructions := 1, upstreamCalls := 1, sendCalls := 0 }

/-- Concrete driver answer for `getChats`: one group chat, one direct chat. -/
def chatsW : List Chat :=
  [⟨true, "g2", "gu", "Grp"⟩, ⟨false, "c1", "cu", "C"⟩]

/-- Teardown environment in which everything goes wrong: the remote
sign-out errors and overruns the 10 s bound, `destroy()` fails, and the
session-directory removal fails. -/
def envBad : TeardownEnv :=
  { remoteResult := .error "boom", remoteDuration := 20000,
    destroyResult := .error "crash", filesExist := true,
    fsResult := .error "fs" }

/-- Teardown environment in which everything succeeds instantly. -/
def envGood : TeardownEnv :=
  { remoteResult := .ok (), remoteDuration := 5,
    destroyResult := .ok (), filesExist := true, fsResult := .ok () }

/-- Claim C1: for a tenant with no session, N concurrent `getClientForUser`
calls construct exactly one driver client and all callers receive the same
session instance.  The code's check-then-act (`sessions.has`, `await
this.createClient(...)`, `sessions.set`) makes this false: under the
schedule where both tasks pass the `has` check before either registers
(both reach the `await` suspension point), two driver clients are
constructed, the two callers end with distinct session records, and the
second registration overwrites the first. -/
theorem C1_concurrent_acquire_constructs_two_drivers :
    (runSchedule [0, 1, 0, 1] emptyState
        [⟨"u1", .start⟩, ⟨"u1", .start⟩]).1.constructions = 2 ∧
    (runSchedule [0, 1, 0, 1] emptyState
        [⟨"u1", .start⟩, ⟨"u1", .start⟩]).2 =
      [⟨"u1", .finished (freshClient 0)⟩, ⟨"u1", .finished (freshClient 1)⟩] ∧
    freshClient 0 ≠ freshClient 1 ∧
    lookupEntry (runSchedule [0, 1, 0, 1] emptyState
        [⟨"u1", .start⟩, ⟨"u1", .start⟩]).1.sessions "u1" =
      some (freshClient 1) := by
  decide

/-- Claim C2, as stated, is false: after the driver fires `auth_failure`
for `"u1"`, the tenant's entry is still in the registry (the handler only
rejects the ready-promise), and a subsequent `getClientForUser` returns
the same failed session without constructing a fresh one (the construction
count stays 1). -/
theorem C2_auth_failure_entry_not_evicted :
    lookupEntry (serviceEvent (getClientForUser emptyState "u1").2 "u1"
        (.authFailure "denied")).sessions "u1" =
      some { clientId := 0, qrCode := none, ready := .rejected "denied",
             info := false } ∧
    (getClientForUser (serviceEvent (getClientForUser emptyState "u1").2 "u1"
        (.authFailure "denied")) "u1").2.constructions = 1 ∧
    (getClientForUser (serviceEvent (getClientForUser emptyState "u1").2 "u1"
        (.authFailure "denied")) "u1").1.ready = .rejected "denied" := by
  decide

/-- Claim C2 amended: when the driver fires `auth_failure` for a registered
session, the session's ready-promise is rejected with the failure message,
but the tenant's registry entry is NOT evicted, and every subsequent
get-or-create call returns the same failed session without constructing a
fresh one. -/
theorem C2_auth_failure_rejects_without_eviction (st : ServiceState)
    (u msg : String) (cd : ClientData)
    (hcd : lookupEntry st.sessions u = some cd) :
    lookupEntry (serviceEvent st u (.authFailure msg)).sessions u =
      some (handleEventV1 cd (.authFailure msg)) ∧
    (cd.ready = .pending →
      (handleEventV1 cd (.authFailure msg)).ready = .rejected msg) ∧
    getClientForUser (serviceEvent st u (.authFailure msg)) u =
      (handleEventV1 cd (.authFailure msg),
       serviceEvent st u (.authFailure msg)) := by
  refine ⟨?_, ?_, ?_⟩
  · simp [serviceEvent, hcd, lookupEntry_setEntry_self]
  · intro hp
    simp [handleEventV1, rejectP, hp]
  · simp [getClientForUser, serviceEvent, hcd, lookupEntry_setEntry_self]

/-- Witness for C2's amended theorem at the concrete failed session. -/
theorem C2_auth_failure_rejects_without_eviction_witness :
    lookupEntry (serviceEvent (getClientForUser emptyState "u1").2 "u1"
        (.authFailure "denied")).sessions "u1" =
      some (handleEventV1 (freshClient 0) (.authFailure "denied")) ∧
    ((freshClient 0).ready = .pending →
      (handleEventV1 (freshClient 0) (.authFailure "denied")).ready =
        .rejected "denied") ∧
    getClientForUser (serviceEvent (getClientForUser emptyState "u1").2 "u1"
        (.authFailure "denied")) "u1" =
      (handleEventV1 (freshClient 0) (.authFailure "denied"),
       serviceEvent (getClientForUser emptyState "u1").2 "u1"
         (.authFailure "denied")) :=
  C2_auth_failure_rejects_without_eviction
    (getClientForUser emptyState "u1").2 "u1" "denied" (freshClient 0)
    (by decide)

/-- Claim C3, as stated, is false: in `logout`'s `finally` block,
`await clientData.client.destroy()` completes before
`this.sessions.delete(userId)` runs, so the registry eviction is NOT
visible before driver disposal completes.  On the concrete authenticated
session the teardown trace is `[remoteLogout, destroy, evict,
removeFiles]`, and the evict action does not precede the destroy action. -/
theorem C3_evict_not_before_destroy :
    (logout stW "u1" envGood).2 =
      [.remoteLogout true, .destroy true, .evict, .removeFiles true] ∧
    ¬ ((logout stW "u1" envGood).2.findIdx isEvictAct <
        (logout stW "u1" envGood).2.findIdx isDestroyAct) := by
  decide

/-- Claim C3 amended: during logout of a registered session, the tenant's
entry is removed from the Registry after driver disposal completes (or
fails) and before the on-disk session directory is removed; after the call
the tenant is absent from the Registry. -/
theorem C3_evict_between_destroy_and_file_removal (st : ServiceState)
    (u : String) (env : TeardownEnv) (cd : ClientData)
    (hcd : lookupEntry st.sessions u = some cd) :
    (logout st u env).2 =
      (if cd.info then
        [TAct.remoteLogout
          (exceptOk (raceLogout env.remoteResult env.remoteDuration))]
      else []) ++
      [TAct.destroy (exceptOk env.destroyResult), TAct.evict] ++
      (if env.filesExist then [TAct.removeFiles (exceptOk env.fsResult)]
       else []) ∧
    (logout st u env).2.findIdx isDestroyAct <
      (logout st u env).2.findIdx isEvictAct ∧
    lookupEntry (logout st u env).1.sessions u = none := by
  refine ⟨?_, ?_, ?_⟩
  · simp [logout, hcd]
  · cases hinfo : cd.info <;>
      simp [logout, hcd, hinfo, List.findIdx_cons, isDestroyAct, isEvictAct]
  · simp [logout, hcd, lookupEntry_removeEntry_self]

/-- Witness for C3's amended theorem on the concrete authenticated session
with a fully failing teardown environment. -/
theorem C3_evict_between_destroy_and_file_removal_witness :
    (logout stW "u1" envBad).2 =
      (if cdReady.info then
        [TAct.remoteLogout
          (exceptOk (raceLogout envBad.remoteResult envBad.remoteDuration))]
      else []) ++
      [TAct.destroy (exceptOk envBad.destroyResult), TAct.evict] ++
      (if envBad.filesExist then
        [TAct.removeFiles (exceptOk envBad.fsResult)]
       else []) ∧
    (logout stW "u1" envBad).2.findIdx isDestroyAct <
      (logout stW "u1" envBad).2.findIdx isEvictAct ∧
    lookupEntry (logout stW "u1" envBad).1.sessions "u1" = none :=
  C3_evict_between_destroy_and_file_removal stW "u1" envBad cdReady
    (by decide)

/-- Claim C4, as stated, is false: variant 1's `createClient` registers no
timer at all, so at wall-clock time 600000 ms (ten minutes after
initialization, far past the claimed 60 s bound) with no driver callbacks,
the session's ready-promise is still pending — it has not been rejected
and no AUTH_FAILED transition has occurred, so a waiting caller hangs. -/
theorem C4_no_timeout_still_pending_after_60s :
    (stateAtV1 [] 600000).ready = PState.pending := by
  decide

/-- Claim C4 amended: the service has no authentication timeout; the
ready-promise is settled only by an explicit driver `ready` or
`auth_failure` callback.  Whatever wall-clock time has elapsed, if the
driver has fired only `qr` callbacks (or none), the ready-promise is still
pending and no AUTH_FAILED transition has occurred. -/
theorem C4_ready_pending_without_driver_resolution
    (events : List (Nat × WEvent)) (T : Nat)
    (h : (events.all fun p => p.2.isQr) = true) :
    (stateAtV1 events T).ready = PState.pending := by
  rw [List.all_eq_true] at h
  have hall : ∀ e ∈ (events.filter fun p => p.1 ≤ T).map Prod.snd,
      e.isQr = true := by
    intro e he
    rcases List.mem_map.mp he with ⟨p, hp, rfl⟩
    exact h p (List.mem_of_mem_filter hp)
  calc (stateAtV1 events T).ready
      = (freshClient 0).ready := foldl_qr_ready _ _ hall
    _ = PState.pending := rfl

/-- Witness for C4's amended theorem: two QR callbacks, ten minutes
elapsed, the ready-promise is still pending. -/
theorem C4_ready_pending_without_driver_resolution_witness :
    (([(5, WEvent.qr "q1"), (30, WEvent.qr "q2")].all
        fun p => p.2.isQr) = true) ∧
    (stateAtV1 [(5, WEvent.qr "q1"), (30, WEvent.qr "q2")] 600000).ready =
      PState.pending :=
  ⟨by decide,
   C4_ready_pending_without_driver_resolution
     [(5, WEvent.qr "q1"), (30, WEvent.qr "q2")] 600000 (by decide)⟩

/-- Claim C5: a cache entry younger than the 5-minute `CACHE_TTL` is
returned as-is with no upstream driver call and no state change; an entry
whose age is at least `CACHE_TTL` is never returned — with a ready session
the call makes exactly one upstream listing call and stores the freshly
filtered/projected result under the timestamp taken at entry. -/
theorem C5_cache_ttl_hit_and_refresh (st : ServiceState) (u : String)
    (now : Nat) (chats : List Chat) (entry : CacheEntry)
    (hc : lookupEntry st.chatCache u = some entry) :
    (now - entry.timestamp < CACHE_TTL →
      getChats st u now chats = .ok entry.data st) ∧
    (CACHE_TTL ≤ now - entry.timestamp →
      ∀ cd, lookupEntry st.sessions u = some cd → cd.ready = .resolved →
        getChats st u now chats =
          .ok ((chats.filter fun c => c.isGroup).map projectChat)
            { st with
              upstreamCalls := st.upstreamCalls + 1,
              chatCache := setEntry st.chatCache u
                ⟨(chats.filter fun c => c.isGroup).map projectChat, now⟩ }) := by
  constructor
  · intro hlt
    simp [getChats, hc, hlt]
  · intro hge cd hcd hready
    simp [getChats, hc, Nat.not_lt.mpr hge, getChatsMiss, getClientForUser,
      hcd, hready]

/-- Witness for C5: on the concrete fixture, a call at age 299999 ms
returns the cached list unchanged, and a call at age exactly 300000 ms
refreshes through the driver. -/
theorem C5_cache_ttl_hit_and_refresh_witness :
    getChats stW "u1" 300999 chatsW =
      .ok (⟨[⟨"g1", "G"⟩], 1000⟩ : CacheEntry).data stW ∧
    getChats stW "u1" 301000 chatsW =
      .ok ((chatsW.filter fun c => c.isGroup).map projectChat)
        { stW with
          upstreamCalls := stW.upstreamCalls + 1,
          chatCache := setEntry stW.chatCache "u1"
            ⟨(chatsW.filter fun c => c.isGroup).map projectChat, 301000⟩ } :=
  ⟨(C5_cache_ttl_hit_and_refresh stW "u1" 300999 chatsW
      ⟨[⟨"g1", "G"⟩], 1000⟩ (by decide)).1 (by decide),
   (C5_cache_ttl_hit_and_refresh stW "u1" 301000 chatsW
      ⟨[⟨"g1", "G"⟩], 1000⟩ (by decide)).2 (by decide) cdReady (by decide)
     (by decide)⟩

/-- Claim C6, as stated, is false: after the first QR challenge for a
variant-2 session expires (its 2-minute timer fires), `firstQrShown` is
never reset, so the next renewal callback is NOT captured as a new
challenge — after `qr "q1"` at time 0, the timer firing at 120000 ms, and
a renewal `qr "q2"` at 120001 ms, the session holds no challenge at all
instead of the claimed fresh `"q2"` challenge. -/
theorem C6_expired_qr_renewal_not_captured :
    (handleEventV2 (handleEventV2 (handleEventV2 freshClientV2
        (.qr "q1" 0)) (.timerFire QR_EXPIRY_MS))
        (.qr "q2" (QR_EXPIRY_MS + 1))).qrCode = none ∧
    (handleEventV2 (handleEventV2 (handleEventV2 freshClientV2
        (.qr "q1" 0)) (.timerFire QR_EXPIRY_MS))
        (.qr "q2" (QR_EXPIRY_MS + 1))).qrCode ≠ some (asciiQR "q2") ∧
    (handleEventV2 (handleEventV2 (handleEventV2 freshClientV2
        (.qr "q1" 0)) (.timerFire QR_EXPIRY_MS))
        (.qr "q2" (QR_EXPIRY_MS + 1))).firstQrShown = true := by
  decide

/-- Claim C6 amended: once a QR challenge has been issued, renewal events
are ignored unconditionally (the session state is unchanged) — not only
until consumption or expiry; the first challenge arms a timer for
`QR_EXPIRY_MS` (2 minutes) after issuance; and when that timer fires at
its deadline the challenge is cleared but the ignore-renewals gate
(`firstQrShown`) stays closed, so no later renewal is ever captured. -/
theorem C6_qr_renewal_policy (cd : ClientDataV2) (payload : String)
    (t : Nat) :
    (cd.firstQrShown = true → handleEventV2 cd (.qr payload t) = cd) ∧
    (cd.firstQrShown = false →
      handleEventV2 cd (.qr payload t) =
        { cd with
          firstQrShown := true,
          qrCode := some (asciiQR payload),
          qrTimerDeadline := some (t + QR_EXPIRY_MS) }) ∧
    (∀ d, cd.qrTimerDeadline = some d → d ≤ t →
      (handleEventV2 cd (.timerFire t)).qrCode = none ∧
      (handleEventV2 cd (.timerFire t)).firstQrShown = cd.firstQrShown) := by
  refine ⟨?_, ?_, ?_⟩
  · intro hshown
    simp [handleEventV2, hshown]
  · intro hshown
    simp [handleEventV2, hshown]
  · intro d hd ht
    cases hq : cd.qrCode <;> simp [handleEventV2, hd, ht, hq]

/-- Witness for C6's amended theorem: a renewal against a session with the
gate closed is dropped, and a timer firing at its deadline clears the
challenge without reopening the gate. -/
theorem C6_qr_renewal_policy_witness :
    (handleEventV2 ⟨some "x", true, some 100, .pending⟩ (.qr "p" 100) =
      ⟨some "x", true, some 100, .pending⟩) ∧
    ((handleEventV2 (⟨some "x", true, some 100, .pending⟩ : ClientDataV2)
        (.timerFire 100)).qrCode = none ∧
      (handleEventV2 (⟨some "x", true, some 100, .pending⟩ : ClientDataV2)
        (.timerFire 100)).firstQrShown =
        (⟨some "x", true, some 100, .pending⟩ : ClientDataV2).firstQrShown) ∧
    (handleEventV2 ⟨none, false, none, .pending⟩ (.qr "p" 7) =
      { (⟨none, false, none, .pending⟩ : ClientDataV2) with
        firstQrShown := true,
        qrCode := some (asciiQR "p"),
        qrTimerDeadline := some (7 + QR_EXPIRY_MS) }) :=
  ⟨(C6_qr_renewal_policy ⟨some "x", true, some 100, .pending⟩ "p" 100).1 rfl,
   (C6_qr_renewal_policy ⟨some "x", true, some 100, .pending⟩ "p" 100).2.2
     100 rfl (by decide),
   (C6_qr_renewal_policy ⟨none, false, none, .pending⟩ "p" 7).2.1 rfl⟩

/-- Claim C7: `logout` is idempotent and absorbing — for an unregistered
tenant it is a success no-op; for a registered tenant it always ends with
the tenant absent from the Registry; the final service state does not
depend on the teardown environment (remote sign-out timeout or error,
disposal failure, file-removal failure are all absorbed); and the remote
sign-out race rejects with the timeout error whenever the driver takes at
least `LOGOUT_TIMEOUT_MS` (10 s). -/
theorem C7_logout_idempotent_and_absorbing (st : ServiceState) (u : String)
    (env : TeardownEnv) :
    (lookupEntry st.sessions u = none → logout st u env = (st, [])) ∧
    (∀ cd, lookupEntry st.sessions u = some cd →
      lookupEntry (logout st u env).1.sessions u = none) ∧
    (∀ env', (logout st u env).1 = (logout st u env').1) ∧
    (∀ res d, LOGOUT_TIMEOUT_MS ≤ d →
      raceLogout res d = .error "Timeout no logout") := by
  refine ⟨?_, ?_, ?_, ?_⟩
  · intro habs
    simp [logout, habs]
  · intro cd hcd
    simp [logout, hcd, lookupEntry_removeEntry_self]
  · intro env'
    cases hcd : lookupEntry st.sessions u <;> simp [logout, hcd]
  · intro res d hd
    simp [raceLogout, hd]

/-- Witness for C7: a no-op logout on the empty service, a fully failing
teardown that still evicts `"u1"`, agreement of the final state across a
failing and a succeeding environment, and a 10000 ms remote sign-out
being converted to the timeout rejection. -/
theorem C7_logout_idempotent_and_absorbing_witness :
    logout emptyState "u1" envBad = (emptyState, []) ∧
    lookupEntry (logout stW "u1" envBad).1.sessions "u1" = none ∧
    (logout stW "u1" envBad).1 = (logout stW "u1" envGood).1 ∧
    raceLogout (Except.ok ()) 10000 = .error "Timeout no logout" :=
  ⟨(C7_logout_idempotent_and_absorbing emptyState "u1" envBad).1 rfl,
   (C7_logout_idempotent_and_absorbing stW "u1" envBad).2.1 cdReady
     (by decide),
   (C7_logout_idempotent_and_absorbing stW "u1" envBad).2.2.1 envGood,
   (C7_logout_idempotent_and_absorbing stW "u1" envBad).2.2.2
     (Except.ok ()) 10000 (by decide)⟩

/-- Claim C8: with a ready session, `mentionEveryone` on a chat the driver
reports as existing but not a group throws the not-a-group error, and on
a chat the driver reports as missing throws the chat-not-found error; in
both cases the service state is returned unchanged, so in particular no
driver send call is made (`sendCalls` is untouched) and no session is
constructed. -/
theorem C8_mention_everyone_guards (st : ServiceState)
    (u chatId message : String) (cd : ClientData)
    (hcd : lookupEntry st.sessions u = some cd)
    (hready : cd.ready = .resolved) :
    (∀ c : Chat, c.isGroup = false →
      mentionEveryone st u chatId message (some c) =
        .err "O chat não é um grupo" st) ∧
    mentionEveryone st u chatId message none =
      .err "Chat não encontrado" st := by
  constructor
  · intro c hg
    simp [mentionEveryone, getClientForUser, hcd, hready, hg]
  · simp [mentionEveryone, getClientForUser, hcd, hready]

/-- Witness for C8: `mentionAll("u1", "c1", "hi")` against a non-group chat
and against a missing chat, on the concrete ready session. -/
theorem C8_mention_everyone_guards_witness :
    mentionEveryone stW "u1" "c1" "hi" (some ⟨false, "c1", "cu", "C"⟩) =
      .err "O chat não é um grupo" stW ∧
    mentionEveryone stW "u1" "c1" "hi" none =
      .err "Chat não encontrado" stW :=
  ⟨(C8_mention_everyone_guards stW "u1" "c1" "hi" cdReady (by decide)
      rfl).1 ⟨false, "c1", "cu", "C"⟩ rfl,
   (C8_mention_everyone_guards stW "u1" "c1" "hi" cdReady (by decide)
      rfl).2⟩

/-- Claim C9: `logout` never touches `chatCache`; a tenant whose listing
was cached less than `CACHE_TTL` ago still gets the pre-logout cached list
from `getChats` after any logout, with the post-logout state returned
unchanged — so no session is constructed and no upstream driver call is
made. -/
theorem C9_logout_preserves_chat_cache (st : ServiceState) (u v : String)
    (env : TeardownEnv) (entry : CacheEntry) (now : Nat)
    (chats : List Chat)
    (hc : lookupEntry st.chatCache v = some entry)
    (hfresh : now - entry.timestamp < CACHE_TTL) :
    (logout st u env).1.chatCache = st.chatCache ∧
    getChats (logout st u env).1 v now chats =
      .ok entry.data (logout st u env).1 := by
  have hcache : (logout st u env).1.chatCache = st.chatCache := by
    cases hcd : lookupEntry st.sessions u <;> simp [logout, hcd]
  refine ⟨hcache, ?_⟩
  have hc' : lookupEntry (logout st u env).1.chatCache v = some entry := by
    rw [hcache]; exact hc
  simp [getChats, hc', hfresh]

/-- Witness for C9: logging out `"u1"` itself and immediately listing its
groups at cache age 299999 ms still serves the pre-logout cached list. -/
theorem C9_logout_preserves_chat_cache_witness :
    (logout stW "u1" envGood).1.chatCache = stW.chatCache ∧
    getChats (logout stW "u1" envGood).1 "u1" 300999 chatsW =
      .ok (⟨[⟨"g1", "G"⟩], 1000⟩ : CacheEntry).data
        (logout stW "u1" envGood).1 :=
  C9_logout_preserves_chat_cache stW "u1" "u1" envGood
    ⟨[⟨"g1", "G"⟩], 1000⟩ 300999 chatsW (by decide) (by decide)

/-- Claim C10: for a tenant with no registered session, both
`getConnectionStatus` and `getQRCode` construct and register a fresh
driver session as a side effect (construction count bumped, new session
registered) rather than reporting absence; `getConnectionStatus` then
reports `"disconnected"` for the fresh, not-yet-authenticated client, and
`getQRCode` reports the ready flag since the fresh client has no QR code
yet. -/
theorem C10_status_ops_get_or_create (st : ServiceState) (u : String)
    (habs : lookupEntry st.sessions u = none) :
    getConnectionStatus st u =
      ("disconnected",
       { st with
         constructions := st.constructions + 1,
         sessions := setEntry st.sessions u (freshClient st.constructions) }) ∧
    getQRCode st u =
      (.readyFlag,
       { st with
         constructions := st.constructions + 1,
         sessions := setEntry st.sessions u (freshClient st.constructions) }) ∧
    lookupEntry (getConnectionStatus st u).2.sessions u =
      some (freshClient st.constructions) := by
  refine ⟨?_, ?_, ?_⟩
  · simp [getConnectionStatus, getClientForUser, habs, createClient,
      freshClient]
  · simp [getQRCode, getClientForUser, habs, createClient, freshClient]
  · simp [getConnectionStatus, getClientForUser, habs, createClient,
      freshClient, lookupEntry_setEntry_self]

/-- Witness for C10 on the empty service and tenant `"u1"`. -/
theorem C10_status_ops_get_or_create_witness :
    getConnectionStatus emptyState "u1" =
      ("disconnected",
       { emptyState with
         constructions := emptyState.constructions + 1,
         sessions := setEntry emptyState.sessions "u1"
           (freshClient emptyState.constructions) }) ∧
    getQRCode emptyState "u1" =
      (.readyFlag,
       { emptyState with
         constructions := emptyState.constructions + 1,
         sessions := setEntry emptyState.sessions "u1"
           (freshClient emptyState.constructions) }) ∧
    lookupEntry (getConnectionStatus emptyState "u1").2.sessions "u1" =
      some (freshClient emptyState.constructions) :=
  C10_status_ops_get_or_create emptyState "u1" rfl

end WhatsAuto
